import Mathlib

set_option maxRecDepth 100000

/-!
Shallow embedding of the recipe-suggestion computation of the Fridge Pro
backend (`backend/src/routes/recipes.ts`, handler for `GET
/recipes/suggestions`), together with theorems settling the frozen claims
about it.

Conventions of the embedding:
* Database rows are in-memory lists: `userFridgeItems` models the rows of
  `fridgeItem` for the requesting user, `allRecipes` the full `recipe`
  table (with the `ingredients` relation included), and `favoriteRecipeIds`
  the `recipeId` column of the `favoriteRecipe` rows of the user.  The
  Prisma query `recipe.findMany (where id in favoriteIdsSet)` is modelled
  as a filter of the same `allRecipes` table; the JavaScript `Set` built
  from `favoriteRecipeIds` is kept as a list, since the only operations
  performed on it (`has`, `in`) are membership tests for which duplicates
  are irrelevant.
* JavaScript floating-point numbers are modelled as exact rationals `ℚ`;
  `Math.round` (round half toward positive infinity) is `jsRound`.
* Pass-through display fields of the response payload (description,
  instructions, prepTime, cookTime, servings, difficulty, imageUrl,
  createdAt, createdById, createdBy, source, and the per-ingredient echo
  with its `available` flag) are copied verbatim by the handler and play
  no role in any claim; the embedding keeps `title` as a representative
  pass-through field and drops the rest.
* The `isFavorite` flag of a suggestion entry is computed in the source
  from the included `favoriteRecipes` relation rows of the recipe
  (`recipe.favoriteRecipes.length > 0`), which are the rows of the same
  `favoriteRecipe` table that `favoriteIdsSet` is built from, restricted
  to the same user; it is therefore modelled as membership of the recipe
  id in `favoriteRecipeIds`.
-/

namespace FridgePro

/-- A row of the `fridgeItem` table for the requesting user, with the
fields relevant to the suggestion computation: the referenced ingredient
id plus the quantity/unit/expiry data that the handler never reads. -/
structure FridgeItem where
  ingredientId : Nat
  quantity : ℚ
  unit : String
  expiresAt : Option Nat
deriving DecidableEq

/-- A `recipeIngredient` row: one required ingredient reference of a
recipe, with its quantity/unit/notes data. -/
structure RecipeIngredient where
  id : Nat
  ingredientId : Nat
  quantity : ℚ
  unit : Option String
  notes : Option String
deriving DecidableEq

/-- A `recipe` row with its included `ingredients` relation.  `title`
stands for the pass-through display fields. -/
structure Recipe where
  id : Nat
  title : String
  ingredients : List RecipeIngredient
deriving DecidableEq

/-- `availableIngredientIds`: the handler maps the fridge rows of the
user to their `ingredientId` (recipes.ts lines 206-208). -/
def availableIngredientIds (userFridgeItems : List FridgeItem) : List Nat :=
  userFridgeItems.map (fun item => item.ingredientId)

/-- One element of `scoredRecipes`: a recipe together with its raw
(unrounded) score and its missing-ingredient count. -/
structure ScoredRecipe where
  recipe : Recipe
  score : ℚ
  missingIngredients : Nat
deriving DecidableEq

/-- `scoredRecipes` (recipes.ts lines 276-293): for each recipe,
`totalIngredients` is the length of its `ingredients` list,
`availableIngredients` counts the required references whose
`ingredientId` occurs in `availableIds` (`Array.includes`), the raw
`score` is `(availableIngredients / totalIngredients) * 100` guarded by
`totalIngredients > 0` (else `0`), and `missingIngredients` counts the
required references not in `availableIds`. -/
def scoredRecipes (availableIds : List Nat) (allRecipes : List Recipe) :
    List ScoredRecipe :=
  allRecipes.map (fun recipe =>
    let totalIngredients : Nat := recipe.ingredients.length
    let availableIngredients : Nat :=
      (recipe.ingredients.filter
        (fun ri => availableIds.contains ri.ingredientId)).length
    let score : ℚ :=
      if totalIngredients > 0 then
        ((availableIngredients : ℚ) / (totalIngredients : ℚ)) * 100
      else 0
    { recipe := recipe
      score := score
      missingIngredients :=
        (recipe.ingredients.filter
          (fun ri => !availableIds.contains ri.ingredientId)).length })

/-- JavaScript `Math.round`: round half toward positive infinity,
`⌊x + 1/2⌋`. -/
def jsRound (q : ℚ) : ℤ := ⌊q + 1 / 2⌋

/-- One entry of the JSON payload produced for a suggestion or a
favorite (recipes.ts lines 296-332 and 340-372), restricted to the
fields the claims are about; `title` stands for the pass-through
fields. -/
structure SuggestionEntry where
  id : Nat
  title : String
  isFavorite : Bool
  compatibilityScore : ℤ
  missingIngredientsCount : Nat
deriving DecidableEq

/-- The recipes returned by the `favoriteRecipesPromise` query
(recipes.ts lines 226-249): the rows of the recipe table whose id is in
`favoriteIdsSet`, modelled as a filter of the same table that
`allRecipesPromise` returns. -/
def favoriteRecipes (favoriteRecipeIds : List Nat) (allRecipes : List Recipe) :
    List Recipe :=
  allRecipes.filter (fun r => favoriteRecipeIds.contains r.id)

/-- `favoriteRecipesPayload` (recipes.ts lines 296-332): every favorite
recipe is mapped to a payload entry with `isFavorite: true` and the
literal constants `compatibilityScore: 100` and
`missingIngredientsCount: 0`. -/
def favoriteRecipesPayload (favoriteRecipeIds : List Nat)
    (allRecipes : List Recipe) : List SuggestionEntry :=
  (favoriteRecipes favoriteRecipeIds allRecipes).map (fun recipe =>
    { id := recipe.id
      title := recipe.title
      isFavorite := true
      compatibilityScore := 100
      missingIngredientsCount := 0 })

/-- The scored recipes selected for the `suggestions` payload
(recipes.ts lines 334-339, before the final `.map`): keep those with raw
`score > 0` whose id is not in `favoriteIdsSet`, sort by raw score
descending (`(a, b) => b.score - a.score`, a stable sort), and slice the
first `Math.max(10 - favoriteRecipesPayload.length, 0)`. -/
def selectedScored (availableIds favoriteRecipeIds : List Nat)
    (allRecipes : List Recipe) : List ScoredRecipe :=
  (((scoredRecipes availableIds allRecipes).filter
      (fun s => decide (0 < s.score) &&
        !favoriteRecipeIds.contains s.recipe.id)).mergeSort
    (fun a b => decide (b.score ≤ a.score))).take
    (max (10 - ((favoriteRecipesPayload favoriteRecipeIds allRecipes).length : ℤ))
      0).toNat

/-- The `suggestions` list (recipes.ts lines 334-372): the selected
scored recipes mapped to payload entries, with `compatibilityScore:
Math.round(score)` and `missingIngredientsCount: missingIngredients`. -/
def suggestions (availableIds favoriteRecipeIds : List Nat)
    (allRecipes : List Recipe) : List SuggestionEntry :=
  (selectedScored availableIds favoriteRecipeIds allRecipes).map (fun s =>
    { id := s.recipe.id
      title := s.recipe.title
      isFavorite := favoriteRecipeIds.contains s.recipe.id
      compatibilityScore := jsRound s.score
      missingIngredientsCount := s.missingIngredients })

/-- `combinedSuggestions` (recipes.ts lines 374-377): the favorites
payload followed by the selected suggestions, truncated to 10.  The
handler computes this list but never uses it; the response body contains
only `suggestions`. -/
def combinedSuggestions (availableIds favoriteRecipeIds : List Nat)
    (allRecipes : List Recipe) : List SuggestionEntry :=
  (favoriteRecipesPayload favoriteRecipeIds allRecipes ++
    suggestions availableIds favoriteRecipeIds allRecipes).take 10

/-- The list serialized as `data.suggestions` by the handler
(recipes.ts lines 196-385): empty when the user holds no fridge items
(the short-circuit at lines 210-217), otherwise the `suggestions` list
(the `res.json` at lines 379-384 returns `suggestions`, not
`combinedSuggestions`). -/
def suggestionsResponse (userFridgeItems : List FridgeItem)
    (favoriteRecipeIds : List Nat) (allRecipes : List Recipe) :
    List SuggestionEntry :=
  let availableIds := availableIngredientIds userFridgeItems
  if availableIds.length = 0 then []
  else suggestions availableIds favoriteRecipeIds allRecipes

/-- The number of required ingredient references of `r` present in the
inventory, written after the words of the spec: "`availableCount` is the
number of required ingredient references of the recipe present in
`inventory` (by reference equality)". -/
def specAvailableCount (inventoryIds : List Nat) (r : Recipe) : Nat :=
  (r.ingredients.filter (fun ri => inventoryIds.contains ri.ingredientId)).length

/-- The compatibility score written after the words of the spec:
"`round(100 * availableCount / totalCount)` where ... `totalCount` is
the number of required ingredient references (not deduplicated)". -/
def specCompatibilityScore (inventoryIds : List Nat) (r : Recipe) : ℤ :=
  jsRound (100 * (specAvailableCount inventoryIds r : ℚ) /
    (r.ingredients.length : ℚ))

/-! ### Helper lemmas -/

lemma jsRound_mono {a b : ℚ} (h : a ≤ b) : jsRound a ≤ jsRound b :=
  Int.floor_le_floor (by linarith)

lemma jsRound_nonneg {q : ℚ} (h : 0 ≤ q) : 0 ≤ jsRound q :=
  Int.le_floor.mpr (by push_cast; linarith)

lemma jsRound_hundred : jsRound 100 = 100 := by
  norm_num [jsRound]

/-- Unfolding a membership in `scoredRecipes`: the element is the image
of a catalog recipe under the scoring map. -/
lemma mem_scoredRecipes {availableIds : List Nat} {allRecipes : List Recipe}
    {s : ScoredRecipe} (hs : s ∈ scoredRecipes availableIds allRecipes) :
    s.recipe ∈ allRecipes ∧
      s.score = (if s.recipe.ingredients.length > 0 then
        ((specAvailableCount availableIds s.recipe : ℚ) /
          (s.recipe.ingredients.length : ℚ)) * 100 else 0) ∧
      s.missingIngredients =
        (s.recipe.ingredients.filter
          (fun ri => !availableIds.contains ri.ingredientId)).length := by
  rw [scoredRecipes, List.mem_map] at hs
  obtain ⟨r, hr, rfl⟩ := hs
  exact ⟨hr, rfl, rfl⟩

/-- The raw score of every scored recipe lies between 0 and 100. -/
lemma score_bounds {availableIds : List Nat} {allRecipes : List Recipe}
    {s : ScoredRecipe} (hs : s ∈ scoredRecipes availableIds allRecipes) :
    0 ≤ s.score ∧ s.score ≤ 100 := by
  obtain ⟨-, hscore, -⟩ := mem_scoredRecipes hs
  rw [hscore]
  split
  case isTrue ht =>
    have hle : specAvailableCount availableIds s.recipe ≤
        s.recipe.ingredients.length := List.length_filter_le _ _
    have ht0 : (0 : ℚ) < (s.recipe.ingredients.length : ℚ) := by
      exact_mod_cast ht
    constructor
    · positivity
    · rw [mul_comm]
      have h1 : ((specAvailableCount availableIds s.recipe : ℚ) /
          (s.recipe.ingredients.length : ℚ)) ≤ 1 := by
        rw [div_le_one ht0]
        exact_mod_cast hle
      nlinarith
  case isFalse => norm_num

/-- A member of the selected list is a scored recipe with positive raw
score whose id is not a favorite. -/
lemma mem_selectedScored {availableIds favoriteRecipeIds : List Nat}
    {allRecipes : List Recipe} {s : ScoredRecipe}
    (hs : s ∈ selectedScored availableIds favoriteRecipeIds allRecipes) :
    s ∈ scoredRecipes availableIds allRecipes ∧ 0 < s.score ∧
      favoriteRecipeIds.contains s.recipe.id = false := by
  rw [selectedScored] at hs
  have h1 := List.mem_of_mem_take hs
  have h2 := (List.mergeSort_perm _ _).mem_iff.mp h1
  have h3 := List.mem_filter.mp h2
  refine ⟨h3.1, ?_, ?_⟩
  · have := h3.2
    simp only [Bool.and_eq_true, decide_eq_true_eq] at this
    exact this.1
  · have := h3.2
    simp only [Bool.and_eq_true, Bool.not_eq_true'] at this
    exact this.2

/-! ### Claims -/

/-- C4: for every catalog and every favorite set, if the inventory of
the user is empty then the suggestion result is the empty sequence. -/
theorem c4_empty_inventory_empty_result (favoriteRecipeIds : List Nat)
    (allRecipes : List Recipe) :
    suggestionsResponse [] favoriteRecipeIds allRecipes = [] := rfl

/-- C6: for every inventory, catalog and favorite set, the length of the
suggestion result never exceeds the fixed result limit 10. -/
theorem c6_result_length_le_ten (userFridgeItems : List FridgeItem)
    (favoriteRecipeIds : List Nat) (allRecipes : List Recipe) :
    (suggestionsResponse userFridgeItems favoriteRecipeIds allRecipes).length ≤
      10 := by
  rw [suggestionsResponse]
  split
  · simp
  · rw [suggestions, List.length_map, selectedScored, List.length_take]
    have h : (max (10 -
        ((favoriteRecipesPayload favoriteRecipeIds allRecipes).length : ℤ))
        0).toNat ≤ 10 := by omega
    omega

/-- C7: in every suggestion result, the entries (all of which are
non-favorites) are ordered by attached `compatibilityScore` descending:
no entry has a strictly higher attached score than any entry preceding
it. -/
theorem c7_sorted_by_score_desc (userFridgeItems : List FridgeItem)
    (favoriteRecipeIds : List Nat) (allRecipes : List Recipe) :
    (suggestionsResponse userFridgeItems favoriteRecipeIds allRecipes).Pairwise
      (fun a b => b.compatibilityScore ≤ a.compatibilityScore) := by
  rw [suggestionsResponse]
  split
  · exact List.Pairwise.nil
  · rw [suggestions, List.pairwise_map, selectedScored]
    refine List.Pairwise.sublist (List.take_sublist _ _) ?_
    have htrans : ∀ a b c : ScoredRecipe,
        decide (b.score ≤ a.score) = true → decide (c.score ≤ b.score) = true →
        decide (c.score ≤ a.score) = true := by
      intro a b c hab hbc
      simp only [decide_eq_true_eq] at hab hbc ⊢
      exact le_trans hbc hab
    have htotal : ∀ a b : ScoredRecipe,
        (decide (b.score ≤ a.score) || decide (a.score ≤ b.score)) = true := by
      intro a b
      simp only [Bool.or_eq_true, decide_eq_true_eq]
      exact le_total _ _
    have hsorted := @List.sorted_mergeSort ScoredRecipe
      (fun a b => decide (b.score ≤ a.score)) htrans htotal
      ((scoredRecipes (availableIngredientIds userFridgeItems) allRecipes).filter
        (fun s => decide (0 < s.score) &&
          !favoriteRecipeIds.contains s.recipe.id))
    exact hsorted.imp (fun h => jsRound_mono (of_decide_eq_true h))

/-- C3: for every non-empty inventory and every catalog recipe with a
positive number of required ingredient references, the attached
compatibility score is `round(100 * availableCount / totalCount)` as the
spec words it (references counted without deduplication), and it lies
between 0 and 100. -/
theorem c3_compatibility_score_formula (inventoryIds : List Nat)
    (allRecipes : List Recipe) (hinv : inventoryIds ≠ []) (s : ScoredRecipe)
    (hs : s ∈ scoredRecipes inventoryIds allRecipes)
    (ht : s.recipe.ingredients.length > 0) :
    jsRound s.score = specCompatibilityScore inventoryIds s.recipe ∧
      0 ≤ jsRound s.score ∧ jsRound s.score ≤ 100 := by
  obtain ⟨-, hscore, -⟩ := mem_scoredRecipes hs
  obtain ⟨h0, h100⟩ := score_bounds hs
  refine ⟨?_, jsRound_nonneg h0,
    le_trans (jsRound_mono h100) (le_of_eq jsRound_hundred)⟩
  rw [hscore, if_pos ht, specCompatibilityScore]
  congr 1
  ring

/-- Concrete input for the C3 witness: a recipe requiring ingredients 1
and 2 while the inventory holds only ingredient 1. -/
def c3Recipe : Recipe :=
  ⟨1, "A", [⟨1, 1, 1, none, none⟩, ⟨2, 2, 1, none, none⟩]⟩

/-- Witness for C3 at a concrete input: the scored entry of `c3Recipe`
against inventory `[1]` carries raw score 50 and rounds to the spec
formula within bounds. -/
theorem c3_witness :
    jsRound ({ recipe := c3Recipe, score := 50, missingIngredients := 1 } :
        ScoredRecipe).score =
      specCompatibilityScore [1]
        ({ recipe := c3Recipe, score := 50, missingIngredients := 1 } :
          ScoredRecipe).recipe ∧
      0 ≤ jsRound ({ recipe := c3Recipe, score := 50, missingIngredients := 1 } :
        ScoredRecipe).score ∧
      jsRound ({ recipe := c3Recipe, score := 50, missingIngredients := 1 } :
        ScoredRecipe).score ≤ 100 :=
  c3_compatibility_score_formula [1] [c3Recipe] (by decide) _
    (by
      rw [scoredRecipes]
      norm_num [c3Recipe, ScoredRecipe.mk.injEq])
    (by decide)

/-- C9: two runs whose fridge rows agree on the ingredient ids held (and
may differ in quantity, unit or expiry) produce identical suggestion
results: the computation reads only the ingredient id of each row. -/
theorem c9_quantity_unit_expiry_irrelevant (inv1 inv2 : List FridgeItem)
    (favoriteRecipeIds : List Nat) (allRecipes : List Recipe)
    (h : inv1.map (fun item => item.ingredientId) =
      inv2.map (fun item => item.ingredientId)) :
    suggestionsResponse inv1 favoriteRecipeIds allRecipes =
      suggestionsResponse inv2 favoriteRecipeIds allRecipes := by
  rw [suggestionsResponse, suggestionsResponse, availableIngredientIds,
    availableIngredientIds, h]

/-- Concrete inputs for the C9 witness: the same ingredient held in 500 g
and in 1 kg expiring on day 7. -/
def c9Inv1 : List FridgeItem := [⟨1, 500, "g", none⟩]

/-- Second inventory for the C9 witness. -/
def c9Inv2 : List FridgeItem := [⟨1, 1, "kg", some 7⟩]

/-- Recipe used by the C9 witness. -/
def c9Recipe : Recipe := ⟨3, "B", [⟨1, 1, 2, none, none⟩]⟩

/-- Witness for C9 at a concrete input. -/
theorem c9_witness :
    suggestionsResponse c9Inv1 [2] [c9Recipe] =
      suggestionsResponse c9Inv2 [2] [c9Recipe] :=
  c9_quantity_unit_expiry_irrelevant c9Inv1 c9Inv2 [2] [c9Recipe] (by decide)

/-- C10: the returned suggestions list holds at most
`max(10 - favoritesCount, 0)` entries, `favoritesCount` being the number
of catalog recipes whose id is favorited; in particular with at least 10
favorites present in the catalog the returned list is empty, even though
the favorites themselves are not part of the returned field. -/
theorem c10_favorites_crowd_out (userFridgeItems : List FridgeItem)
    (favoriteRecipeIds : List Nat) (allRecipes : List Recipe) :
    (suggestionsResponse userFridgeItems favoriteRecipeIds allRecipes).length ≤
      (max (10 - ((favoriteRecipes favoriteRecipeIds allRecipes).length : ℤ))
        0).toNat ∧
      (10 ≤ (favoriteRecipes favoriteRecipeIds allRecipes).length →
        suggestionsResponse userFridgeItems favoriteRecipeIds allRecipes = []) := by
  have hlen : (favoriteRecipesPayload favoriteRecipeIds allRecipes).length =
      (favoriteRecipes favoriteRecipeIds allRecipes).length :=
    List.length_map _ _
  constructor
  · rw [suggestionsResponse]
    split
    · simp
    · rw [suggestions, List.length_map, selectedScored, List.length_take, hlen]
      omega
  · intro hfav
    rw [suggestionsResponse]
    split
    · rfl
    · rw [suggestions, selectedScored]
      have hzero : (max (10 -
          ((favoriteRecipesPayload favoriteRecipeIds allRecipes).length : ℤ))
          0).toNat = 0 := by
        rw [hlen]; omega
      rw [hzero, List.take_zero, List.map_nil]

/-- Catalog for the C10 witness: recipes 1 through 11, each requiring
ingredient 1. -/
def c10Recipes : List Recipe :=
  (List.range 11).map (fun i => ⟨i + 1, "", [⟨1, 1, 1, none, none⟩]⟩)

/-- Favorites for the C10 witness: recipe ids 1 through 10. -/
def c10Favs : List Nat := (List.range 10).map (fun i => i + 1)

/-- Witness for C10 at a concrete input: with 10 favorited catalog
recipes the returned suggestions list is empty, although recipe 11 is
fully compatible. -/
theorem c10_witness :
    suggestionsResponse [⟨1, 1, "", none⟩] c10Favs c10Recipes = [] :=
  (c10_favorites_crowd_out [⟨1, 1, "", none⟩] c10Favs c10Recipes).2 (by decide)

/-- C8: a recipe whose required-ingredients list is empty gets raw score
0 (the guard avoids the division; the computation is total) and is never
selected as a non-favorite suggestion. -/
theorem c8_empty_ingredient_list (availableIds favoriteRecipeIds : List Nat)
    (allRecipes : List Recipe) (s : ScoredRecipe)
    (hs : s ∈ scoredRecipes availableIds allRecipes)
    (hempty : s.recipe.ingredients = []) :
    s.score = 0 ∧
      s ∉ selectedScored availableIds favoriteRecipeIds allRecipes := by
  obtain ⟨-, hscore, -⟩ := mem_scoredRecipes hs
  have h0 : s.score = 0 := by
    rw [hscore, hempty]
    simp
  refine ⟨h0, fun hmem => ?_⟩
  have hpos := (mem_selectedScored hmem).2.1
  rw [h0] at hpos
  exact lt_irrefl 0 hpos

/-- Recipe with no required ingredients, for the C8 witness. -/
def c8Recipe : Recipe := ⟨3, "", []⟩

/-- Witness for C8 at a concrete input. -/
theorem c8_witness :
    ({ recipe := c8Recipe, score := 0, missingIngredients := 0 } :
        ScoredRecipe).score = 0 ∧
      ({ recipe := c8Recipe, score := 0, missingIngredients := 0 } :
        ScoredRecipe) ∉ selectedScored [5] [] [c8Recipe] :=
  c8_empty_ingredient_list [5] [] [c8Recipe] _
    (by
      rw [scoredRecipes]
      simp [c8Recipe])
    rfl

/-- Catalog recipe for the C5 counterexample: 201 required ingredient
references with ids 1 through 201. -/
def c5Recipe : Recipe :=
  ⟨1, "", (List.range 201).map (fun i => ⟨i, i + 1, 1, none, none⟩)⟩

/-- Inventory for the C5 counterexample: only ingredient 1 is held. -/
def c5Items : List FridgeItem := [⟨1, 1, "", none⟩]

/-- Counterexample to C5: with one of 201 required ingredients held, the
raw score 100/201 passes the `score > 0` filter, yet
`Math.round(100/201) = 0`, so a non-favorite entry with attached
`compatibilityScore` 0 appears in the result. -/
theorem c5_counterexample :
    (suggestionsResponse c5Items [] [c5Recipe]).map
      (fun e => (e.isFavorite, e.compatibilityScore)) = [(false, 0)] := by
  have ha : (c5Recipe.ingredients.filter
      (fun ri => List.contains [1] ri.ingredientId)).length = 1 := by decide
  have hm : (c5Recipe.ingredients.filter
      (fun ri => !List.contains [1] ri.ingredientId)).length = 200 := by decide
  have ht : c5Recipe.ingredients.length = 201 := by decide
  have hscored : scoredRecipes [1] [c5Recipe] =
      [{ recipe := c5Recipe, score := (1 : ℚ)/201 * 100,
         missingIngredients := 200 }] := by
    rw [scoredRecipes]
    simp only [List.map_cons, List.map_nil, ha, hm, ht]
    norm_num
  have hdec : decide (0 < (1 : ℚ)/201 * 100) = true := by
    simp only [decide_eq_true_eq]
    norm_num
  have hresp : suggestionsResponse c5Items [] [c5Recipe] =
      suggestions [1] [] [c5Recipe] := rfl
  rw [hresp, suggestions, selectedScored, hscored]
  simp only [List.filter_cons, List.filter_nil, hdec, List.contains_nil,
    Bool.not_false, Bool.and_true, List.mergeSort_singleton]
  simp only [favoriteRecipesPayload, favoriteRecipes, List.filter_nil,
    List.map_nil, List.length_nil]
  norm_num [jsRound, List.take, List.contains_nil]

/-- C5 amended: every selected non-favorite suggestion has positive raw
(unrounded) score and a non-favorited id; the attached rounded
`compatibilityScore` may nevertheless display as 0 when
`0 < 100 * availableCount / totalCount < 1/2`. -/
theorem c5_amended_score_positive (availableIds favoriteRecipeIds : List Nat)
    (allRecipes : List Recipe) (s : ScoredRecipe)
    (hs : s ∈ selectedScored availableIds favoriteRecipeIds allRecipes) :
    0 < s.score ∧ favoriteRecipeIds.contains s.recipe.id = false :=
  (mem_selectedScored hs).2

/-- Recipe for the C5 amended witness: one required ingredient, held. -/
def c5wRecipe : Recipe := ⟨4, "", [⟨1, 1, 1, none, none⟩]⟩

/-- Witness for the amended C5 at a concrete input. -/
theorem c5_amended_witness :
    0 < ({ recipe := c5wRecipe, score := 100, missingIngredients := 0 } :
        ScoredRecipe).score ∧
      List.contains ([] : List Nat)
        ({ recipe := c5wRecipe, score := 100, missingIngredients := 0 } :
          ScoredRecipe).recipe.id = false :=
  c5_amended_score_positive [1] [] [c5wRecipe] _
    (by
      have hsel : selectedScored [1] [] [c5wRecipe] =
          [{ recipe := c5wRecipe, score := 100, missingIngredients := 0 }] := by
        rw [selectedScored, scoredRecipes]
        simp only [List.map_cons, List.map_nil, c5wRecipe]
        norm_num [List.filter, List.mergeSort_singleton, favoriteRecipesPayload,
          favoriteRecipes, List.take, ScoredRecipe.mk.injEq]
      rw [hsel]
      exact List.mem_singleton.mpr rfl)

/-- Favorited recipe for the C2 counterexample: requires only ingredient
2, while the inventory holds only ingredient 1 (true score 0, one
missing ingredient). -/
def c2Recipe : Recipe := ⟨2, "", [⟨1, 2, 1, none, none⟩]⟩

/-- Inventory for the C2 counterexample. -/
def c2Items : List FridgeItem := [⟨1, 1, "", none⟩]

/-- Counterexample to C2: the favorites payload entry of `c2Recipe`
carries `compatibilityScore` 100 and `missingIngredientsCount` 0 even
though its true computed score is 0 (and one ingredient is missing);
moreover the actually returned response contains no favorite at all. -/
theorem c2_counterexample :
    (combinedSuggestions (availableIngredientIds c2Items) [2] [c2Recipe]).map
        (fun e => (e.id, e.isFavorite, e.compatibilityScore,
          e.missingIngredientsCount)) = [(2, true, 100, 0)] ∧
      specCompatibilityScore (availableIngredientIds c2Items) c2Recipe = 0 ∧
      suggestionsResponse c2Items [2] [c2Recipe] = [] := by
  have hsugg : suggestions [1] [2] [c2Recipe] = [] := by
    rw [suggestions, selectedScored, scoredRecipes]
    norm_num [c2Recipe, List.filter, List.contains]
  refine ⟨?_, ?_, ?_⟩
  · have havail : availableIngredientIds c2Items = [1] := rfl
    rw [havail, combinedSuggestions, hsugg]
    norm_num [favoriteRecipesPayload, favoriteRecipes, c2Recipe, List.contains,
      List.take]
  · norm_num [specCompatibilityScore, specAvailableCount, c2Recipe, c2Items,
      availableIngredientIds, jsRound, List.contains]
  · have hresp : suggestionsResponse c2Items [2] [c2Recipe] =
        suggestions [1] [2] [c2Recipe] := rfl
    rw [hresp, hsugg]

/-- C2 amended: every entry of the favorites payload (the block that
`combinedSuggestions` puts first) carries the forced constants
`compatibilityScore = 100` and `missingIngredientsCount = 0`, regardless
of the true computed values; no favorite appears in the returned
`suggestions` list at all. -/
theorem c2_amended_forced_values (favoriteRecipeIds : List Nat)
    (allRecipes : List Recipe) (e : SuggestionEntry)
    (he : e ∈ favoriteRecipesPayload favoriteRecipeIds allRecipes) :
    e.isFavorite = true ∧ e.compatibilityScore = 100 ∧
      e.missingIngredientsCount = 0 := by
  rw [favoriteRecipesPayload, List.mem_map] at he
  obtain ⟨r, hr, rfl⟩ := he
  exact ⟨rfl, rfl, rfl⟩

/-- The payload entry produced for `c2Recipe`, used by the amended C2
witness. -/
def c2Entry : SuggestionEntry :=
  { id := 2, title := "", isFavorite := true, compatibilityScore := 100,
    missingIngredientsCount := 0 }

/-- Witness for the amended C2 at a concrete input. -/
theorem c2_amended_witness :
    c2Entry.isFavorite = true ∧ c2Entry.compatibilityScore = 100 ∧
      c2Entry.missingIngredientsCount = 0 :=
  c2_amended_forced_values [2] [c2Recipe] c2Entry (by decide)

/-- Favorited, fully compatible recipe for the C1 failing input. -/
def c1Recipe : Recipe := ⟨1, "", [⟨1, 1, 1, none, none⟩]⟩

/-- Inventory for the C1 failing input. -/
def c1Items : List FridgeItem := [⟨1, 1, "", none⟩]

/-- C1 failing input, evaluated: with a non-empty inventory and recipe 1
favorited (and 100% compatible), the returned response is empty — the
favorite appears zero times, not once — while the dead
`combinedSuggestions` value (computed and never returned) does contain
it exactly once. -/
theorem c1_favorite_absent_from_response :
    suggestionsResponse c1Items [1] [c1Recipe] = [] ∧
      (combinedSuggestions (availableIngredientIds c1Items) [1] [c1Recipe]).map
        (fun e => e.id) = [1] := by
  have hsugg : suggestions [1] [1] [c1Recipe] = [] := by
    rw [suggestions, selectedScored, scoredRecipes]
    norm_num [c1Recipe, List.filter, List.contains]
  constructor
  · have hresp : suggestionsResponse c1Items [1] [c1Recipe] =
        suggestions [1] [1] [c1Recipe] := rfl
    rw [hresp, hsugg]
  · have havail : availableIngredientIds c1Items = [1] := rfl
    rw [havail, combinedSuggestions, hsugg]
    norm_num [favoriteRecipesPayload, favoriteRecipes, c1Recipe, List.contains,
      List.take]

end FridgePro
